import Mathlib

/-!
Shallow embedding of the ADT Pulse Home Assistant integration
(custom_components/adtpulse/alarm_control_panel.py and
custom_components/adtpulse/binary_sensor.py).

The two source modules are presentation glue: mapping tables from vendor
alarm statuses and sensor tags to platform states and device classes,
entity property getters, command forwarding, and platform setup loops.
Constants imported from the external libraries (pyadtpulse and
homeassistant) are opaque distinct values from this code's point of view,
so they are modelled as inductive tokens; Python dictionaries are modelled
as association lists in source order; raised exceptions are modelled with
Except; awaited side effects are modelled as explicit effect traces.
-/

/-- Vendor alarm status values (the ADT_ALARM_* constants imported from
pyadtpulse.site, plus `other` for any status string outside that fixed
vocabulary). The constants are opaque distinct values to this code. -/
inductive ADTAlarmStatus where
  | arming
  | away
  | disarming
  | home
  | off
  | unknown
  | other (s : String)
  deriving DecidableEq, Repr

/-- Normalized Home Assistant alarm states (the STATE_ALARM_* constants
imported from homeassistant.const), modelled as distinct tokens. -/
inductive AlarmState where
  | arming
  | armed_away
  | disarming
  | armed_home
  | disarmed
  deriving DecidableEq, Repr

/-- alarm_control_panel.py, ALARM_MAP: the Python dict from vendor alarm
status to normalized platform state.  `some v` means the status is a key of
the dict whose value is `v` (the value for ADT_ALARM_UNKNOWN is Python
None, i.e. `none`); the outer `none` means the status is not a key. -/
def ALARM_MAP : ADTAlarmStatus → Option (Option AlarmState)
  | .arming => some (some .arming)
  | .away => some (some .armed_away)
  | .disarming => some (some .disarming)
  | .home => some (some .armed_home)
  | .off => some (some .disarmed)
  | .unknown => some none
  | .other _ => none

/-- alarm_control_panel.py, ADTPulseAlarm.state: return ALARM_MAP[status]
when the site's status is a key of ALARM_MAP, else None. -/
def ADTPulseAlarm.state (status : ADTAlarmStatus) : Option AlarmState :=
  match ALARM_MAP status with
  | some v => v
  | none => none

/-- The external site operations an alarm command can invoke
(pyadtpulse ADTPulseSite.async_disarm / async_arm_home / async_arm_away,
the latter with its force_arm keyword). -/
inductive SiteCall where
  | disarm
  | armHome
  | armAway (force_arm : Bool)
  deriving DecidableEq, Repr

/-- Observable effects of an alarm command handler: the awaited call into
the external site object, the Home Assistant state-refresh notification
(async_write_ha_state), and a warning log line. -/
inductive AlarmEffect where
  | callSite (c : SiteCall)
  | writeHAState
  | logWarning
  deriving DecidableEq, Repr

/-- alarm_control_panel.py, ADTPulseAlarm._perform_alarm_action: given the
boolean result of the awaited arm/disarm coroutine, issue
async_write_ha_state on success, else log a warning.  The function is
total: it raises nothing and retries nothing. -/
def ADTPulseAlarm.perform_alarm_action (result : Bool) : List AlarmEffect :=
  if result then [.writeHAState] else [.logWarning]

/-- A site is modelled, for the alarm commands, by the boolean results its
async operations return; a command handler produces the trace of the call
it awaits followed by the effects of _perform_alarm_action on that call's
result. alarm_control_panel.py, ADTPulseAlarm.async_alarm_disarm. -/
def ADTPulseAlarm.async_alarm_disarm (site : SiteCall → Bool) : List AlarmEffect :=
  .callSite .disarm :: ADTPulseAlarm.perform_alarm_action (site .disarm)

/-- alarm_control_panel.py, ADTPulseAlarm.async_alarm_arm_home. -/
def ADTPulseAlarm.async_alarm_arm_home (site : SiteCall → Bool) : List AlarmEffect :=
  .callSite .armHome :: ADTPulseAlarm.perform_alarm_action (site .armHome)

/-- alarm_control_panel.py, ADTPulseAlarm.async_alarm_arm_away
(async_arm_away is called without force_arm, whose default is False). -/
def ADTPulseAlarm.async_alarm_arm_away (site : SiteCall → Bool) : List AlarmEffect :=
  .callSite (.armAway false) :: ADTPulseAlarm.perform_alarm_action (site (.armAway false))

/-- alarm_control_panel.py, ADTPulseAlarm.async_alarm_arm_custom_bypass:
force arm is async_arm_away with force_arm=True. -/
def ADTPulseAlarm.async_alarm_arm_custom_bypass (site : SiteCall → Bool) : List AlarmEffect :=
  .callSite (.armAway true) :: ADTPulseAlarm.perform_alarm_action (site (.armAway true))

/-- Modelled from the spec (section 4, command forwarding): the expected
trace of one alarm command — the corresponding external operation is
awaited to completion first, then its boolean result triggers exactly a
state-refresh notification on success or a warning log on failure. -/
def commandTraceSpec (c : SiteCall) (site : SiteCall → Bool) : List AlarmEffect :=
  [.callSite c, cond (site c) .writeHAState .logWarning]

/-- Home Assistant BinarySensorDeviceClass members used by binary_sensor.py,
modelled as distinct tokens. -/
inductive BinarySensorDeviceClass where
  | co
  | door
  | moisture
  | garage_door
  | heat
  | motion
  | smoke
  | tamper
  | window
  | connectivity
  deriving DecidableEq, Repr

/-- binary_sensor.py, ADT_DEVICE_CLASS_TAG_MAP: the Python dict from ADT
Pulse zone tag to device class, as an association list in source
(insertion) order. -/
def ADT_DEVICE_CLASS_TAG_MAP : List (String × BinarySensorDeviceClass) :=
  [("co", .co),
   ("doorWindow", .door),
   ("flood", .moisture),
   ("garage", .garage_door),
   ("fire", .heat),
   ("motion", .motion),
   ("smoke", .smoke),
   ("glass", .tamper)]

/-- Dict lookup ADT_DEVICE_CLASS_TAG_MAP[tag], `none` for a KeyError. -/
def tagLookup (tag : String) : Option BinarySensorDeviceClass :=
  ADT_DEVICE_CLASS_TAG_MAP.lookup tag

/-- The `for tag in tags: try: ... break; except KeyError: continue` loop in
_determine_device_class: the class of the first tag, in the order the tags
appear on the zone, that is a key of ADT_DEVICE_CLASS_TAG_MAP. -/
def firstMatch : List String → Option BinarySensorDeviceClass
  | [] => none
  | t :: rest =>
    match tagLookup t with
    | some dc => some dc
    | none => firstMatch rest

/-- Python substring containment over char lists: `needle in hay`. -/
def charsContain (needle : List Char) : List Char → Bool
  | [] => needle.isEmpty
  | c :: rest => needle.isPrefixOf (c :: rest) || charsContain needle rest

/-- Python `needle in hay` on strings. -/
def strContains (hay needle : String) : Bool :=
  charsContain needle.toList hay.toList

/-- Modelled from the spec (sections 4 and 8): case-insensitive substring
containment, the relation the spec uses for the window-name heuristic. -/
def strContainsCI (hay needle : String) : Bool :=
  charsContain (needle.toList.map Char.toLower) (hay.toList.map Char.toLower)

/-- Modelled from the spec (section 4, sensor classification): scan the
classification table in table-defined priority order and return the first
entry whose tag is present in the zone's tag set. -/
def tableOrderMatch (tags : List String) : Option BinarySensorDeviceClass :=
  ADT_DEVICE_CLASS_TAG_MAP.findSome? fun p => if tags.contains p.1 then some p.2 else none

/-- pyadtpulse ADTPulseZoneData, restricted to the fields binary_sensor.py
reads for classification: display name and tag list. -/
structure ADTPulseZoneData where
  name : String
  tags : List String
  deriving DecidableEq, Repr

/-- binary_sensor.py, ADTPulseZoneSensor._determine_device_class.  The scan
over the zone's tags runs only when the literal tag "sensor" is present;
a still-undetermined class raises ValueError (modelled as Except.error with
the raised message); a DOOR class is refined to WINDOW when the zone name
contains "Window" or "window". -/
def ADTPulseZoneSensor.determine_device_class
    (zone_data : ADTPulseZoneData) : Except String BinarySensorDeviceClass :=
  let tags := zone_data.tags
  let device_class : Option BinarySensorDeviceClass :=
    if tags.contains "sensor" then firstMatch tags else none
  match device_class with
  | none => .error "Unknown ADT Pulse device class None"
  | some dc =>
    if dc == .door && (strContains zone_data.name "Window" || strContains zone_data.name "window") then
      .ok .window
    else
      .ok dc

/-- pyadtpulse ADTPulseSite, restricted to the fields the two modules read:
id, display name, and zones_as_dict as an association list from zone id to
zone data (in dict order). -/
structure Site where
  id : String
  name : String
  zones : List (Nat × ADTPulseZoneData)
  deriving DecidableEq, Repr

/-- binary_sensor.py, ADTPulseZoneSensor state after __init__. -/
structure ZoneSensor where
  site : Site
  zone_id : Nat
  my_zone : ADTPulseZoneData
  device_class : BinarySensorDeviceClass
  deriving DecidableEq, Repr

/-- binary_sensor.py, ADTPulseZoneSensor.__init__ together with
_get_my_zone: look the zone up in site.zones_as_dict (a missing dict or key
raises, modelled as Except.error), then determine the device class
(ValueError propagates), then store the fields. -/
def mkZoneSensor (site : Site) (zone_id : Nat) : Except String ZoneSensor :=
  match site.zones.lookup zone_id with
  | none => .error "KeyError"
  | some z =>
    match ADTPulseZoneSensor.determine_device_class z with
    | .error e => .error e
    | .ok dc => .ok ⟨site, zone_id, z, dc⟩

/-- binary_sensor.py, ADT_SENSOR_ICON_MAP: device class to an
(active icon, inactive icon) pair, as an association list in source order. -/
def ADT_SENSOR_ICON_MAP : List (BinarySensorDeviceClass × (String × String)) :=
  [(.co, ("mdi:molecule-co", "mdi:checkbox-marked-circle")),
   (.door, ("mdi:door-open", "mdi:door")),
   (.garage_door, ("mdi:garage-open-variant", "mdi:garage-variant")),
   (.heat, ("mdi:fire", "mdi:smoke-detector-variant")),
   (.moisture, ("mdi:home-flood", "mdi:heat-wave")),
   (.motion, ("mdi:run-fast", "mdi:motion-sensor")),
   (.smoke, ("mdi:fire", "mdi:smoke-detector-variant")),
   (.tamper, ("mdi:window-open", "mdi:window-closed")),
   (.window, ("mdi:window-open-variant", "mdi:window-closed-variant"))]

/-- Dict lookup ADT_SENSOR_ICON_MAP[dc], `none` when dc is not a key. -/
def iconLookup (dc : BinarySensorDeviceClass) : Option (String × String) :=
  ADT_SENSOR_ICON_MAP.lookup dc

/-- binary_sensor.py, ADTPulseZoneSensor.icon: the fallback icon for a
device class missing from the table, else the first element of the pair
when is_on (zone tripped) and the second otherwise.  `is_on` is the current
value of the entity's is_on property. -/
def ADTPulseZoneSensor.icon (device_class : BinarySensorDeviceClass) (is_on : Bool) : String :=
  match iconLookup device_class with
  | none => "mdi:alert-octogram"
  | some p => if is_on then p.1 else p.2

/-- binary_sensor.py, ADTPulseGatewaySensor.icon: lan-connect when the
gateway is online (is_on), else lan-disconnect. -/
def ADTPulseGatewaySensor.icon (is_on : Bool) : String :=
  if is_on then "mdi:lan-connect" else "mdi:lan-disconnect"

/-- pyadtpulse PyADTPulse service object, restricted to the fields the two
modules read: the site list (and gateway_online, read by the gateway
sensor's is_on). -/
structure PyADTPulse where
  sites : List Site
  gateway_online : Bool
  deriving DecidableEq, Repr

/-- The entities the binary_sensor platform registers. -/
inductive BSEntity where
  | zoneSensor (s : ZoneSensor)
  | gatewaySensor (name : String) (unique_id : String)
  deriving DecidableEq, Repr

/-- binary_sensor.py, ADTPulseGatewaySensor.__init__ together with its name
and unique_id properties: both derive from service.sites[0] (an empty site
list would raise an IndexError). -/
def mkGatewaySensor (service : PyADTPulse) : Except String BSEntity :=
  match service.sites with
  | [] => .error "IndexError"
  | s0 :: _ =>
    .ok (.gatewaySensor (s0.name ++ " Pulse Gateway Status") ("adt_pulse_gateway_" ++ s0.id))

/-- Observable steps of binary_sensor.py async_setup_entry: an error log
line, or one async_add_entities call with its entity list. -/
inductive BSStep where
  | logError
  | addEntities (es : List BSEntity)
  deriving DecidableEq, Repr

/-- One iteration of the per-site loop in binary_sensor.py
async_setup_entry: a site with a falsy (empty) zone dict logs an error and
is skipped; otherwise a zone sensor is built for every zone id (a
construction error propagates), the zone sensors are added, then one
gateway sensor is built and added. -/
def processSite (service : PyADTPulse) (site : Site) : Except String (List BSStep) :=
  if site.zones.isEmpty then
    .ok [.logError]
  else
    match site.zones.mapM (fun p => mkZoneSensor site p.1) with
    | .error e => .error e
    | .ok entities =>
      match mkGatewaySensor service with
      | .error e => .error e
      | .ok g => .ok [.addEntities (entities.map BSEntity.zoneSensor), .addEntities [g]]

/-- The per-site loop of binary_sensor.py async_setup_entry over a list of
sites, concatenating each iteration's steps; an exception raised in one
iteration aborts the rest. -/
def setupSites (service : PyADTPulse) : List Site → Except String (List BSStep)
  | [] => .ok []
  | site :: rest =>
    match processSite service site with
    | .error e => .error e
    | .ok t1 =>
      match setupSites service rest with
      | .error e => .error e
      | .ok t2 => .ok (t1 ++ t2)

/-- binary_sensor.py, async_setup_entry: a falsy service logs an error and
returns; a service with no sites logs an error and returns; otherwise the
per-site loop runs. `serviceOk` is the truthiness of coordinator.adtpulse. -/
def binary_async_setup_entry (serviceOk : Bool) (service : PyADTPulse) :
    Except String (List BSStep) :=
  if !serviceOk then .ok [.logError]
  else if service.sites.isEmpty then .ok [.logError]
  else setupSites service service.sites

/-- Observable steps of alarm_control_panel.py async_setup_entry: an error
log line, or the single async_add_entities call with one alarm panel per
site. -/
inductive AlarmSetupStep where
  | logError
  | addEntities (sites : List Site)
  deriving DecidableEq, Repr

/-- alarm_control_panel.py, async_setup_entry: a falsy coordinator logs an
error and returns; a coordinator whose service has no sites logs an error
and returns; otherwise one ADTPulseAlarm per site is built and added.
`coordinatorOk` is the truthiness of the coordinator object. -/
def alarm_async_setup_entry (coordinatorOk : Bool) (sites : List Site) :
    List AlarmSetupStep :=
  if !coordinatorOk then [.logError]
  else if sites.isEmpty then [.logError]
  else [.addEntities sites]

/-- Whether a registered entity is a gateway status sensor. -/
def BSEntity.isGateway : BSEntity → Bool
  | .gatewaySensor _ _ => true
  | .zoneSensor _ => false

/-- All gateway sensors registered across a setup trace, in order. -/
def gatewaysIn : List BSStep → List BSEntity
  | [] => []
  | .logError :: t => gatewaysIn t
  | .addEntities es :: t => es.filter BSEntity.isGateway ++ gatewaysIn t

/-- A prefix of tags none of which is a table key does not affect the tag
scan. -/
theorem firstMatch_append (l1 l2 : List String) (h : ∀ u ∈ l1, tagLookup u = none) :
    firstMatch (l1 ++ l2) = firstMatch l2 := by
  induction l1 with
  | nil => rfl
  | cons a t ih =>
    have ha : tagLookup a = none := h a (List.mem_cons_self a t)
    have ht : ∀ u ∈ t, tagLookup u = none := fun u hu => h u (List.mem_cons_of_mem a hu)
    simp [firstMatch, ha, ih ht]

/-- If no tag is a table key, the tag scan finds nothing. -/
theorem firstMatch_eq_none (l : List String) (h : ∀ u ∈ l, tagLookup u = none) :
    firstMatch l = none := by
  have := firstMatch_append l [] h
  simpa using this

/-- C1: the alarm panel state property maps each vendor status in the fixed
vocabulary (arming, armed-away, disarming, armed-home, off) to the exact
corresponding normalized platform state, and maps the vendor unknown status
and every status outside the table to None. -/
theorem alarm_state_mapping :
    ADTPulseAlarm.state .arming = some .arming
    ∧ ADTPulseAlarm.state .away = some .armed_away
    ∧ ADTPulseAlarm.state .disarming = some .disarming
    ∧ ADTPulseAlarm.state .home = some .armed_home
    ∧ ADTPulseAlarm.state .off = some .disarmed
    ∧ ADTPulseAlarm.state .unknown = none
    ∧ ∀ s : String, ADTPulseAlarm.state (.other s) = none :=
  ⟨rfl, rfl, rfl, rfl, rfl, rfl, fun _ => rfl⟩

/-- C2 counterexample: the zone name "UPSTAIRS WINDOW" contains "window"
case-insensitively, yet the code classifies the doorWindow zone as door,
not window — the refinement only matches the exact substrings "Window" and
"window". -/
theorem window_refinement_counterexample :
    strContainsCI "UPSTAIRS WINDOW" "window" = true
    ∧ ADTPulseZoneSensor.determine_device_class ⟨"UPSTAIRS WINDOW", ["sensor", "doorWindow"]⟩
        = .ok .door
    ∧ BinarySensorDeviceClass.door ≠ BinarySensorDeviceClass.window :=
  ⟨by decide, rfl, by decide⟩

/-- C2 (amended): for a zone whose tag scan resolves to the door
classification, the result is window exactly when the display name
contains "Window" or "window" as a literal substring (only those two
capitalizations), and door otherwise. -/
theorem door_window_refinement (z : ADTPulseZoneData)
    (hs : z.tags.contains "sensor" = true)
    (hd : firstMatch z.tags = some .door) :
    ADTPulseZoneSensor.determine_device_class z =
      .ok (if strContains z.name "Window" || strContains z.name "window"
           then .window else .door) := by
  unfold ADTPulseZoneSensor.determine_device_class
  simp only [hs, if_true, hd]
  cases h : (strContains z.name "Window" || strContains z.name "window") <;> simp [h]

/-- C2 witness: a doorWindow zone named "Front Window" is classified as a
window. -/
theorem door_window_refinement_witness :
    ADTPulseZoneSensor.determine_device_class ⟨"Front Window", ["sensor", "doorWindow"]⟩
      = .ok .window :=
  (door_window_refinement ⟨"Front Window", ["sensor", "doorWindow"]⟩ (by decide) rfl).trans rfl

/-- C3 counterexample: on tags ["sensor", "glass", "co"] the table-priority
scan would pick co (the first table entry present), but the code returns
tamper (from glass, the first zone tag present in the table); swapping the
zone's tag order changes the result, so classification is not independent
of the order of the zone's tags. -/
theorem tag_priority_counterexample :
    tableOrderMatch ["sensor", "glass", "co"] = some .co
    ∧ ADTPulseZoneSensor.determine_device_class ⟨"Z", ["sensor", "glass", "co"]⟩ = .ok .tamper
    ∧ ADTPulseZoneSensor.determine_device_class ⟨"Z", ["sensor", "co", "glass"]⟩ = .ok .co
    ∧ BinarySensorDeviceClass.tamper ≠ BinarySensorDeviceClass.co :=
  ⟨rfl, rfl, rfl, by decide⟩

/-- C3 (amended): classification scans the zone's tag list in the order the
tags appear on the zone and returns the classification of the first tag
that is a key of the table (followed by the door-to-window refinement); it
does not use the table's priority order and it depends on the zone's tag
order. -/
theorem tag_scan_zone_order (name : String) (l1 : List String) (t : String)
    (l2 : List String) (dc : BinarySensorDeviceClass)
    (h1 : ∀ u ∈ l1, tagLookup u = none)
    (ht : tagLookup t = some dc)
    (hs : (l1 ++ t :: l2).contains "sensor" = true) :
    ADTPulseZoneSensor.determine_device_class ⟨name, l1 ++ t :: l2⟩ =
      .ok (if dc == .door && (strContains name "Window" || strContains name "window")
           then .window else dc) := by
  have hf : firstMatch (l1 ++ t :: l2) = some dc := by
    rw [firstMatch_append l1 (t :: l2) h1]
    simp [firstMatch, ht]
  unfold ADTPulseZoneSensor.determine_device_class
  simp only [hs, if_true, hf]
  cases h : (dc == BinarySensorDeviceClass.door
      && (strContains name "Window" || strContains name "window")) <;> simp [h]

/-- C3 witness: with zone tag order ["sensor", "glass", "co"], the first
zone tag in the table is glass, so the sensor is classified tamper. -/
theorem tag_scan_zone_order_witness :
    ADTPulseZoneSensor.determine_device_class ⟨"Z", ["sensor", "glass", "co"]⟩
      = .ok .tamper :=
  (tag_scan_zone_order "Z" ["sensor"] "glass" ["co"] .tamper (by decide) rfl (by decide)).trans rfl

/-- C4: a zone none of whose tags is a key of the classification table is
rejected: _determine_device_class raises ValueError and the zone sensor
constructor propagates it, so no entity is created and no default class is
substituted. -/
theorem unmatched_tags_no_entity (site : Site) (zone_id : Nat) (z : ADTPulseZoneData)
    (hz : site.zones.lookup zone_id = some z)
    (h : ∀ t ∈ z.tags, tagLookup t = none) :
    ADTPulseZoneSensor.determine_device_class z = .error "Unknown ADT Pulse device class None"
    ∧ mkZoneSensor site zone_id = .error "Unknown ADT Pulse device class None" := by
  have hf : firstMatch z.tags = none := firstMatch_eq_none z.tags h
  have hd : ADTPulseZoneSensor.determine_device_class z
      = .error "Unknown ADT Pulse device class None" := by
    unfold ADTPulseZoneSensor.determine_device_class
    cases hcs : z.tags.contains "sensor" <;> simp [hcs, hf]
  exact ⟨hd, by simp [mkZoneSensor, hz, hd]⟩

/-- C4 witness: a zone tagged ["sensor", "mystery"] has no classifiable tag,
so classification and entity construction both fail. -/
theorem unmatched_tags_no_entity_witness :
    ADTPulseZoneSensor.determine_device_class ⟨"X", ["sensor", "mystery"]⟩
        = .error "Unknown ADT Pulse device class None"
    ∧ mkZoneSensor ⟨"s1", "Home", [(1, ⟨"X", ["sensor", "mystery"]⟩)]⟩ 1
        = .error "Unknown ADT Pulse device class None" :=
  unmatched_tags_no_entity ⟨"s1", "Home", [(1, ⟨"X", ["sensor", "mystery"]⟩)]⟩ 1
    ⟨"X", ["sensor", "mystery"]⟩ rfl (by decide)

/-- C9: classification requires the literal tag "sensor": a zone whose tags
lack it is rejected with ValueError (and the zone sensor constructor
propagates the error), even when the tags contain table keys. -/
theorem no_sensor_tag_no_classification (site : Site) (zone_id : Nat) (z : ADTPulseZoneData)
    (hz : site.zones.lookup zone_id = some z)
    (h : z.tags.contains "sensor" = false) :
    ADTPulseZoneSensor.determine_device_class z = .error "Unknown ADT Pulse device class None"
    ∧ mkZoneSensor site zone_id = .error "Unknown ADT Pulse device class None" := by
  have h2 : "sensor" ∉ z.tags := by simpa using h
  have hd : ADTPulseZoneSensor.determine_device_class z
      = .error "Unknown ADT Pulse device class None" := by
    unfold ADTPulseZoneSensor.determine_device_class
    simp [h2]
  exact ⟨hd, by simp [mkZoneSensor, hz, hd]⟩

/-- C9 witness: a zone tagged ["motion", "doorWindow"] carries two table
keys but no "sensor" tag, and is still rejected. -/
theorem no_sensor_tag_no_classification_witness :
    tagLookup "motion" = some .motion
    ∧ tagLookup "doorWindow" = some .door
    ∧ ADTPulseZoneSensor.determine_device_class ⟨"Office Motion", ["motion", "doorWindow"]⟩
        = .error "Unknown ADT Pulse device class None"
    ∧ mkZoneSensor ⟨"s1", "Home", [(7, ⟨"Office Motion", ["motion", "doorWindow"]⟩)]⟩ 7
        = .error "Unknown ADT Pulse device class None" := by
  have h := no_sensor_tag_no_classification
    ⟨"s1", "Home", [(7, ⟨"Office Motion", ["motion", "doorWindow"]⟩)]⟩ 7
    ⟨"Office Motion", ["motion", "doorWindow"]⟩ rfl (by decide)
  exact ⟨rfl, rfl, h.1, h.2⟩

/-- Effect counts of one command trace: the state refresh appears once
exactly on success, the warning once exactly on failure. -/
theorem perform_count (c : SiteCall) (r : Bool) :
    ((AlarmEffect.callSite c :: ADTPulseAlarm.perform_alarm_action r).count
        AlarmEffect.writeHAState = cond r 1 0)
    ∧ ((AlarmEffect.callSite c :: ADTPulseAlarm.perform_alarm_action r).count
        AlarmEffect.logWarning = cond r 0 1) := by
  cases r <;> simp [ADTPulseAlarm.perform_alarm_action, List.count_cons]

/-- C5: for each of the four commands (disarm, arm home, arm away, force
arm), the handler issues the state-refresh notification exactly once when
the awaited site operation returns true, and zero state refreshes and
exactly one warning log when it returns false; _perform_alarm_action is a
total function (no exception, no retry). -/
theorem alarm_action_refresh_exactly_once (site : SiteCall → Bool) :
    ((ADTPulseAlarm.perform_alarm_action true).count AlarmEffect.writeHAState = 1
      ∧ (ADTPulseAlarm.perform_alarm_action true).count AlarmEffect.logWarning = 0
      ∧ (ADTPulseAlarm.perform_alarm_action false).count AlarmEffect.writeHAState = 0
      ∧ (ADTPulseAlarm.perform_alarm_action false).count AlarmEffect.logWarning = 1)
    ∧ ((ADTPulseAlarm.async_alarm_disarm site).count AlarmEffect.writeHAState
        = cond (site .disarm) 1 0
      ∧ (ADTPulseAlarm.async_alarm_disarm site).count AlarmEffect.logWarning
        = cond (site .disarm) 0 1)
    ∧ ((ADTPulseAlarm.async_alarm_arm_home site).count AlarmEffect.writeHAState
        = cond (site .armHome) 1 0
      ∧ (ADTPulseAlarm.async_alarm_arm_home site).count AlarmEffect.logWarning
        = cond (site .armHome) 0 1)
    ∧ ((ADTPulseAlarm.async_alarm_arm_away site).count AlarmEffect.writeHAState
        = cond (site (.armAway false)) 1 0
      ∧ (ADTPulseAlarm.async_alarm_arm_away site).count AlarmEffect.logWarning
        = cond (site (.armAway false)) 0 1)
    ∧ ((ADTPulseAlarm.async_alarm_arm_custom_bypass site).count AlarmEffect.writeHAState
        = cond (site (.armAway true)) 1 0
      ∧ (ADTPulseAlarm.async_alarm_arm_custom_bypass site).count AlarmEffect.logWarning
        = cond (site (.armAway true)) 0 1) :=
  ⟨⟨rfl, rfl, rfl, rfl⟩,
   perform_count .disarm (site .disarm),
   perform_count .armHome (site .armHome),
   perform_count (.armAway false) (site (.armAway false)),
   perform_count (.armAway true) (site (.armAway true))⟩

/-- C6: for every device class present in the icon table, the zone sensor
icon is the first (active) icon of the pair when is_on and the second
(inactive) icon otherwise; the gateway sensor icon is lan-connect when
online and lan-disconnect when offline. -/
theorem icon_two_state (dc : BinarySensorDeviceClass) (p : String × String)
    (h : iconLookup dc = some p) :
    ADTPulseZoneSensor.icon dc true = p.1
    ∧ ADTPulseZoneSensor.icon dc false = p.2
    ∧ ADTPulseGatewaySensor.icon true = "mdi:lan-connect"
    ∧ ADTPulseGatewaySensor.icon false = "mdi:lan-disconnect" :=
  ⟨by simp [ADTPulseZoneSensor.icon, h], by simp [ADTPulseZoneSensor.icon, h], rfl, rfl⟩

/-- C6 witness: the motion class has the run-fast/motion-sensor icon pair. -/
theorem icon_two_state_witness :
    ADTPulseZoneSensor.icon .motion true = "mdi:run-fast"
    ∧ ADTPulseZoneSensor.icon .motion false = "mdi:motion-sensor"
    ∧ ADTPulseGatewaySensor.icon true = "mdi:lan-connect"
    ∧ ADTPulseGatewaySensor.icon false = "mdi:lan-disconnect" :=
  icon_two_state .motion ("mdi:run-fast", "mdi:motion-sensor") rfl

/-- One command handler's trace is the awaited site call followed by the
report its result determines. -/
theorem command_trace (c : SiteCall) (site : SiteCall → Bool) :
    AlarmEffect.callSite c :: ADTPulseAlarm.perform_alarm_action (site c)
      = commandTraceSpec c site := by
  cases h : site c <;> simp [ADTPulseAlarm.perform_alarm_action, commandTraceSpec, h]

/-- C7: the four alarm commands are forwarded verbatim to the external site
operations — disarm to async_disarm, arm home to async_arm_home, arm away
to async_arm_away, force arm to async_arm_away with force_arm=True — and
each trace awaits the call to completion before the success/failure report,
as described by commandTraceSpec. -/
theorem command_forwarding (site : SiteCall → Bool) :
    ADTPulseAlarm.async_alarm_disarm site = commandTraceSpec .disarm site
    ∧ ADTPulseAlarm.async_alarm_arm_home site = commandTraceSpec .armHome site
    ∧ ADTPulseAlarm.async_alarm_arm_away site = commandTraceSpec (.armAway false) site
    ∧ ADTPulseAlarm.async_alarm_arm_custom_bypass site = commandTraceSpec (.armAway true) site :=
  ⟨command_trace .disarm site, command_trace .armHome site,
   command_trace (.armAway false) site, command_trace (.armAway true) site⟩

/-- C8: a service with no sites makes both platform setups log an error and
abort with no entities added; a site whose zone dict is empty contributes
exactly one error log to the sensor setup trace, and setup continues with
the remaining sites. -/
theorem setup_error_handling (service svc : PyADTPulse) (site : Site) (rest : List Site)
    (hs : service.sites = [])
    (hz : site.zones = []) :
    alarm_async_setup_entry true [] = [AlarmSetupStep.logError]
    ∧ binary_async_setup_entry true service = .ok [BSStep.logError]
    ∧ setupSites svc (site :: rest)
        = Except.map (fun t => BSStep.logError :: t) (setupSites svc rest) := by
  refine ⟨rfl, ?_, ?_⟩
  · simp [binary_async_setup_entry, hs]
  · have hp : processSite svc site = .ok [BSStep.logError] := by
      simp [processSite, hz]
    simp only [setupSites, hp]
    cases hr : setupSites svc rest <;> simp [Except.map]

/-- C8 witness: a service with no sites, and a zoneless site followed by no
further sites. -/
theorem setup_error_handling_witness :
    alarm_async_setup_entry true [] = [AlarmSetupStep.logError]
    ∧ binary_async_setup_entry true ⟨[], true⟩ = .ok [BSStep.logError]
    ∧ setupSites ⟨[], true⟩ (⟨"s2", "Barn", []⟩ :: [])
        = Except.map (fun t => BSStep.logError :: t) (setupSites ⟨[], true⟩ []) :=
  setup_error_handling ⟨[], true⟩ ⟨[], true⟩ ⟨"s2", "Barn", []⟩ [] rfl rfl

/-- gatewaysIn distributes over trace concatenation. -/
theorem gatewaysIn_append (a b : List BSStep) :
    gatewaysIn (a ++ b) = gatewaysIn a ++ gatewaysIn b := by
  induction a with
  | nil => rfl
  | cons s t ih => cases s <;> simp [gatewaysIn, ih]

/-- No zone sensor is a gateway sensor. -/
theorem filter_gateway_zoneSensors (es : List ZoneSensor) :
    (es.map BSEntity.zoneSensor).filter BSEntity.isGateway = [] := by
  induction es with
  | nil => rfl
  | cons a t ih => simp [BSEntity.isGateway, ih]

/-- Over any site list, a successful sensor-platform loop registers exactly
one gateway sensor per site with a non-empty zone dict, every one of them
built from the service's first site. -/
theorem setupSites_gateways (service : PyADTPulse) (s0 : Site) (ss : List Site)
    (hsites : service.sites = s0 :: ss) :
    ∀ (l : List Site) (t : List BSStep), setupSites service l = .ok t →
      gatewaysIn t = List.replicate ((l.filter fun s => !s.zones.isEmpty).length)
        (BSEntity.gatewaySensor (s0.name ++ " Pulse Gateway Status")
          ("adt_pulse_gateway_" ++ s0.id)) := by
  have hg : mkGatewaySensor service
      = .ok (BSEntity.gatewaySensor (s0.name ++ " Pulse Gateway Status")
          ("adt_pulse_gateway_" ++ s0.id)) := by
    simp [mkGatewaySensor, hsites]
  intro l
  induction l with
  | nil =>
    intro t ht
    simp only [setupSites] at ht
    cases ht
    rfl
  | cons site rest ih =>
    intro t ht
    simp only [setupSites] at ht
    cases hp : processSite service site with
    | error e =>
      simp only [hp] at ht
      exact Except.noConfusion ht
    | ok t1 =>
      simp only [hp] at ht
      cases hr : setupSites service rest with
      | error e =>
        simp only [hr] at ht
        exact Except.noConfusion ht
      | ok t2 =>
        simp only [hr] at ht
        cases ht
        rw [gatewaysIn_append]
        by_cases hz : site.zones.isEmpty
        · simp only [processSite, hz, if_true] at hp
          cases hp
          simp [gatewaysIn, List.filter_cons, hz, ih t2 hr]
        · simp only [processSite, hz, if_false] at hp
          cases hm : site.zones.mapM (fun p => mkZoneSensor site p.1) with
          | error e =>
            simp only [hm] at hp
            rw [if_neg Bool.false_ne_true] at hp
            exact Except.noConfusion hp
          | ok entities =>
            simp only [hm, hg] at hp
            rw [if_neg Bool.false_ne_true] at hp
            cases hp
            simp [gatewaysIn, filter_gateway_zoneSensors, BSEntity.isGateway,
              List.filter_cons, hz, ih t2 hr, List.replicate_succ]

/-- C10: when the sensor platform setup succeeds on a service whose site
list is non-empty, the setup trace registers one gateway status sensor per
site with a non-empty zone dict — so N such sites give N gateway entities —
and every one of them carries the same name and the same unique id, both
derived from the first site of the service. -/
theorem gateway_sensor_per_site (service : PyADTPulse) (s0 : Site) (ss : List Site)
    (t : List BSStep)
    (hs : service.sites = s0 :: ss)
    (ht : binary_async_setup_entry true service = .ok t) :
    gatewaysIn t =
      List.replicate ((service.sites.filter fun s => !s.zones.isEmpty).length)
        (BSEntity.gatewaySensor (s0.name ++ " Pulse Gateway Status")
          ("adt_pulse_gateway_" ++ s0.id)) := by
  have hset : setupSites service service.sites = .ok t := by
    unfold binary_async_setup_entry at ht
    rw [hs] at ht ⊢
    simpa using ht
  exact setupSites_gateways service s0 ss hs service.sites t hset

/-- C10 witness: a service with two sites, the first with one door zone and
the second zoneless, registers exactly one gateway sensor, named after and
keyed by the first site. -/
theorem gateway_sensor_per_site_witness :
    gatewaysIn
        [BSStep.addEntities
            [BSEntity.zoneSensor
                ⟨⟨"s1", "Home", [(1, ⟨"Door", ["sensor", "doorWindow"]⟩)]⟩, 1,
                  ⟨"Door", ["sensor", "doorWindow"]⟩, .door⟩],
          BSStep.addEntities
            [BSEntity.gatewaySensor "Home Pulse Gateway Status" "adt_pulse_gateway_s1"],
          BSStep.logError]
      = List.replicate 1
          (BSEntity.gatewaySensor ("Home" ++ " Pulse Gateway Status")
            ("adt_pulse_gateway_" ++ "s1")) :=
  gateway_sensor_per_site
    ⟨[⟨"s1", "Home", [(1, ⟨"Door", ["sensor", "doorWindow"]⟩)]⟩, ⟨"s2", "Barn", []⟩], true⟩
    ⟨"s1", "Home", [(1, ⟨"Door", ["sensor", "doorWindow"]⟩)]⟩
    [⟨"s2", "Barn", []⟩]
    _ rfl rfl
